import Mathlib

/-!
Verification of the AI-Resume-Parser scoring and job-matching logic
(`src/scoring.py`, `src/main.py`) by a shallow embedding in Lean 4.

External libraries (spacy tokenisation, textstat's raw Flesch value,
language_tool_python's match list) are not part of the repository; their
outputs enter the embedded functions as explicit parameters:
  * `tokens`  : the token texts of `nlp(text.lower())` (spacy),
  * `readabilityRaw` : the raw `textstat.flesch_reading_ease(text)` value,
  * `matches` / `toolResult` : the result of `tool.check(text)`
    (`Except` models the possibility that the backend raises).
Python numbers are modelled by ℤ / ℚ; Python sets of strings by `Finset String`.
-/

namespace ResumeParser

/-- Python's built-in `round`: round half to even (banker's rounding),
as applied by `generate_score` to the final and per-part scores. -/
def pythonRound (q : ℚ) : ℤ :=
  let f := ⌊q⌋
  if q - f < 1/2 then f
  else if q - f = 1/2 then (if f % 2 = 0 then f else f + 1)
  else f + 1

/-- A `language_tool_python` match object, restricted to the two fields the
program reads (`m.message`, `m.context`). -/
structure GrammarMatch where
  message : String
  context : String
deriving DecidableEq, Repr

/-- The dictionary returned by `ResumeScorer.generate_score` in
`src/scoring.py`.  The three feedback strings are the entries of the
`feedback` sub-dictionary; `matched_skills` / `missing_skills` are the
Python sets behind the returned lists (list order is unspecified). -/
structure ScoreReport where
  overall_score : ℤ
  skills_score : ℤ
  readability_score : ℤ
  grammar_score : ℤ
  matched_skills : Finset String
  missing_skills : Finset String
  feedback_skills : String
  feedback_readability : String
  feedback_grammar : String
  grammar_errors : List GrammarMatch
deriving DecidableEq

/-- `self.TARGET_SKILLS` from `ResumeScorer.__init__` in `src/scoring.py`. -/
def TARGET_SKILLS : List String :=
  ["python", "java", "c++", "javascript", "sql", "html", "css",
   "react", "angular", "vue", "nodejs", "django", "flask", "git",
   "docker", "kubernetes", "aws", "azure", "gcp", "machine learning",
   "deep learning", "nlp", "data analysis", "pandas", "numpy",
   "scikit-learn", "tensorflow", "pytorch", "api", "rest",
   "mongodb", "postgresql", "mysql"]

/-- `needle` occurs as a contiguous sublist of `haystack`. -/
def listInfix (needle haystack : List Char) : Bool :=
  match haystack with
  | [] => needle.isEmpty
  | c :: rest => needle.isPrefixOf (c :: rest) || listInfix needle rest

/-- Python's substring test `needle in haystack`, as a test on the
character lists. -/
def strContainsSubstr (haystack needle : String) : Bool :=
  listInfix needle.toList haystack.toList

/-- Python's `str.lower()` (character-wise lower-casing). -/
def strToLower (s : String) : String :=
  String.mk (s.toList.map Char.toLower)

/-- Python's single-character membership test `c in s`. -/
def strContainsChar (s : String) (c : Char) : Bool :=
  s.toList.contains c

/-- `ResumeScorer.analyze_skills` (src/scoring.py lines 21-30).
`tokens` is the list of token texts produced by `self.nlp(text.lower())`.
The first loop collects every token whose text is in `TARGET_SKILLS`;
the second adds every multi-word skill (one containing a space) that is a
substring of `text.lower()`.  The resulting Python set is the filter below. -/
def analyze_skills (tokens : List String) (text : String) : Finset String :=
  (TARGET_SKILLS.filter (fun skill =>
      tokens.contains skill ||
      (strContainsChar skill ' ' && strContainsSubstr (strToLower text) skill))).toFinset

/-- `ResumeScorer.calculate_readability` (src/scoring.py lines 32-34):
`max(0, min(100, textstat.flesch_reading_ease(text)))`, with the external
raw Flesch value passed in as `raw`. -/
def calculate_readability (raw : ℚ) : ℚ :=
  max 0 (min 100 raw)

/-- `ResumeScorer.check_grammar` (src/scoring.py lines 36-40), given the
match list returned by `self.tool.check(text)`:
`score = max(0, 100 - num_errors * 5)`, returned with the full match list. -/
def check_grammar (ms : List GrammarMatch) : ℤ × List GrammarMatch :=
  (max 0 (100 - (ms.length : ℤ) * 5), ms)

/-- `ResumeScorer.generate_score` (src/scoring.py lines 42-69), on the
success path where `tool.check` returned `matches`.
`skills_score` and `grammar_score` are Python ints, so `round` leaves them
unchanged; `readability_score` and `final_score` are floats, rounded with
Python's `round` (modelled by `pythonRound`).  `grammar_errors[:10]` is the
truncation applied only in the returned dictionary. -/
def generate_score (text : String) (tokens : List String)
    (readabilityRaw : ℚ) (ms : List GrammarMatch) : ScoreReport :=
  let matched_skills := analyze_skills tokens text
  let readability_score := calculate_readability readabilityRaw
  let grammar_score := (check_grammar ms).1
  let grammar_errors := (check_grammar ms).2
  let skills_score : ℤ := min 100 ((matched_skills.card : ℤ) * 10)
  let final_score : ℚ :=
    (skills_score : ℚ) * (4/10) + readability_score * (3/10) + (grammar_score : ℚ) * (3/10)
  { overall_score := pythonRound final_score
    skills_score := skills_score
    readability_score := pythonRound readability_score
    grammar_score := grammar_score
    matched_skills := matched_skills
    missing_skills := TARGET_SKILLS.toFinset \ matched_skills
    feedback_skills :=
      if skills_score > 50 then "Great job on listing relevant skills!"
      else "Consider adding more industry-standard skills."
    feedback_readability :=
      if readability_score > 60 then "Your resume is easy to read."
      else "Try using shorter sentences and simpler words."
    feedback_grammar :=
      if grammar_score > 80 then "Excellent grammar!"
      else "Found " ++ toString grammar_errors.length ++ " grammar issues."
    grammar_errors := grammar_errors.take 10 }

/-- `generate_score` with the grammar backend call made explicit:
`check_grammar` calls `self.tool.check(text)` with no exception handling,
so a backend failure (`Except.error`) propagates out of `generate_score`. -/
def generate_scoreE (text : String) (tokens : List String)
    (readabilityRaw : ℚ) (toolResult : Except String (List GrammarMatch)) :
    Except String ScoreReport :=
  match toolResult with
  | Except.error e => Except.error e
  | Except.ok ms => Except.ok (generate_score text tokens readabilityRaw ms)

/-- The response of `match_resume_to_job` (src/main.py lines 265-306):
the returned dictionary, on the success path (both ids found). -/
structure MatchResult where
  match_score : ℤ
  matched_skills : Finset String
  missing_skills : Finset String
  total_required : ℕ
  total_matched : ℕ
deriving DecidableEq

/-- `match_resume_to_job` (src/main.py): the skill names of the resume and
the job's required skills are lower-cased into sets; `matched` is their
intersection; `match_percentage` is `len(matched)/len(required)*100` when
the required set is non-empty, else `0`; `match_score = int(match_percentage)`
(truncation toward zero, here equal to the floor since the value is ≥ 0). -/
def match_resume_to_job (resumeSkills requiredSkills : List String) : MatchResult :=
  let resume_skills := (resumeSkills.map strToLower).toFinset
  let required_skills := (requiredSkills.map strToLower).toFinset
  let matched := resume_skills ∩ required_skills
  let match_percentage : ℚ :=
    if required_skills.Nonempty then
      (matched.card : ℚ) / (required_skills.card : ℚ) * 100
    else 0
  { match_score := ⌊match_percentage⌋
    matched_skills := matched
    missing_skills := required_skills \ resume_skills
    total_required := required_skills.card
    total_matched := matched.card }

/-- Concrete test fixture: the spacy token texts of
`"I have experience in Python and also Machine Learning techniques.".lower()`. -/
def demoTokens : List String :=
  ["i", "have", "experience", "in", "python", "and", "also",
   "machine", "learning", "techniques", "."]

/-- Concrete test fixture: the resume text of the skill-matching scenario. -/
def demoText : String :=
  "I have experience in Python and also Machine Learning techniques."

/-- Concrete test fixture: a `tool.check` result with 11 matches. -/
def demoMatches : List GrammarMatch :=
  List.replicate 11 { message := "msg", context := "ctx" }

/-! ### Helper lemmas -/

lemma mem_analyze_skills {tokens : List String} {text s : String} :
    s ∈ analyze_skills tokens text ↔
      s ∈ TARGET_SKILLS ∧
        (s ∈ tokens ∨
          (strContainsChar s ' ' = true ∧
            strContainsSubstr (strToLower text) s = true)) := by
  simp [analyze_skills, List.mem_filter]

lemma analyze_skills_subset (tokens : List String) (text : String) :
    analyze_skills tokens text ⊆ TARGET_SKILLS.toFinset := by
  intro s hs
  rw [List.mem_toFinset]
  exact (mem_analyze_skills.mp hs).1

lemma floor_ratio_mul_hundred (m r : ℕ) :
    ⌊((m : ℚ) / (r : ℚ)) * 100⌋ = ((100 * m) / r : ℕ) := by
  have hq : ((m : ℚ) / (r : ℚ)) * 100 = (((100 * m : ℕ) : ℤ) : ℚ) / ((r : ℕ) : ℚ) := by
    push_cast
    ring
  rw [hq, Rat.floor_intCast_div_natCast, Int.ofNat_div]
  push_cast
  rfl

/-! ### Claims -/

/-- C1: for every resume text (with its external tokenisation, raw Flesch
value and grammar-match list), the `overall_score` field of the report
returned by `generate_score` equals
`round(0.4 × skills_score + 0.3 × readability_score + 0.3 × grammar_score)`,
where the three sub-scores are the ones produced in the same invocation:
`min(100, 10 × |matched|)`, `calculate_readability`, and the score component
of `check_grammar`.  No hidden randomness enters. -/
theorem overall_score_reconstructible (text : String) (tokens : List String)
    (readabilityRaw : ℚ) (ms : List GrammarMatch) :
    (generate_score text tokens readabilityRaw ms).overall_score =
      pythonRound
        ((4/10) * ((min 100 (10 * ((analyze_skills tokens text).card : ℤ)) : ℤ) : ℚ)
          + (3/10) * calculate_readability readabilityRaw
          + (3/10) * (((check_grammar ms).1 : ℤ) : ℚ)) := by
  show pythonRound _ = pythonRound _
  congr 1
  rw [mul_comm ((analyze_skills tokens text).card : ℤ) 10]
  ring

/-- C2: the grammar score is `max(0, 100 − 5 × N)` for the FULL number `N`
of detected errors; the `grammar_errors` field of the report is the match
list truncated to its first 10 entries only after scoring, and the feedback
message counts the full (untruncated) list. -/
theorem grammar_uses_full_count (text : String) (tokens : List String)
    (readabilityRaw : ℚ) (ms : List GrammarMatch) :
    (check_grammar ms).1 = max 0 (100 - 5 * (ms.length : ℤ))
    ∧ (generate_score text tokens readabilityRaw ms).grammar_score
        = max 0 (100 - 5 * (ms.length : ℤ))
    ∧ (generate_score text tokens readabilityRaw ms).grammar_errors = ms.take 10
    ∧ ((generate_score text tokens readabilityRaw ms).grammar_score ≤ 80 →
        (generate_score text tokens readabilityRaw ms).feedback_grammar
          = "Found " ++ toString ms.length ++ " grammar issues.") := by
  have hmax : (check_grammar ms).1 = max 0 (100 - 5 * (ms.length : ℤ)) := by
    show max 0 (100 - (ms.length : ℤ) * 5) = _
    ring_nf
  refine ⟨hmax, hmax, rfl, ?_⟩
  intro h
  replace h : max 0 (100 - (ms.length : ℤ) * 5) ≤ 80 := h
  show (if max 0 (100 - (ms.length : ℤ) * 5) > 80 then "Excellent grammar!"
        else "Found " ++ toString (check_grammar ms).2.length ++ " grammar issues.")
      = "Found " ++ toString ms.length ++ " grammar issues."
  rw [if_neg (not_lt.mpr h)]
  rfl

/-- Witness for C2 at a concrete input with 11 > 10 detected errors:
score 100 − 5 × 11 = 45 (full count), reported error list truncated to 10,
feedback names all 11 errors. -/
theorem grammar_uses_full_count_witness :
    (generate_score "" [] 0 demoMatches).grammar_score = 45
    ∧ (generate_score "" [] 0 demoMatches).grammar_errors.length = 10
    ∧ (generate_score "" [] 0 demoMatches).feedback_grammar
        = "Found 11 grammar issues." := by
  obtain ⟨h0, h1, h2, h3⟩ := grammar_uses_full_count "" [] 0 demoMatches
  refine ⟨h1.trans (by decide), ?_, ?_⟩
  · rw [h2]
    decide
  · rw [h3 (by rw [h1]; decide)]
    decide

/-- C5: the `skills_score` field of every report equals
`min(100, 10 × |matched_skills|)` and is always an integer multiple of 10
(in particular it is a multiple of 10 whenever it is not capped at 100). -/
theorem skills_score_formula (text : String) (tokens : List String)
    (readabilityRaw : ℚ) (ms : List GrammarMatch) :
    (generate_score text tokens readabilityRaw ms).skills_score
        = min 100 (10 * ((analyze_skills tokens text).card : ℤ))
    ∧ (10 : ℤ) ∣ (generate_score text tokens readabilityRaw ms).skills_score := by
  have hform : (generate_score text tokens readabilityRaw ms).skills_score
      = min 100 (10 * ((analyze_skills tokens text).card : ℤ)) := by
    show min 100 (((analyze_skills tokens text).card : ℤ) * 10) = _
    rw [mul_comm]
  refine ⟨hform, ?_⟩
  rw [hform]
  rcases le_total (100 : ℤ) (10 * ((analyze_skills tokens text).card : ℤ)) with h | h
  · rw [min_eq_left h]
    decide
  · rw [min_eq_right h]
    exact Dvd.intro _ rfl

/-- C6: in every report, `matched_skills` and `missing_skills` are disjoint
and their union is the full vocabulary `TARGET_SKILLS`. -/
theorem matched_missing_partition (text : String) (tokens : List String)
    (readabilityRaw : ℚ) (ms : List GrammarMatch) :
    (generate_score text tokens readabilityRaw ms).matched_skills
        ∪ (generate_score text tokens readabilityRaw ms).missing_skills
      = TARGET_SKILLS.toFinset
    ∧ (generate_score text tokens readabilityRaw ms).matched_skills
        ∩ (generate_score text tokens readabilityRaw ms).missing_skills
      = ∅ := by
  constructor
  · show analyze_skills tokens text
        ∪ (TARGET_SKILLS.toFinset \ analyze_skills tokens text) = TARGET_SKILLS.toFinset
    exact Finset.union_sdiff_of_subset (analyze_skills_subset tokens text)
  · show analyze_skills tokens text
        ∩ (TARGET_SKILLS.toFinset \ analyze_skills tokens text) = ∅
    exact Finset.inter_sdiff_self _ _

/-- C7: `calculate_readability` clamps the raw Flesch value into `[0, 100]`
for every possible raw value (including the degenerate values produced for
empty or whitespace-only text); as a total function it cannot raise. -/
theorem readability_clamped (raw : ℚ) :
    0 ≤ calculate_readability raw ∧ calculate_readability raw ≤ 100 := by
  constructor
  · exact le_max_left 0 _
  · exact max_le (by norm_num) (min_le_left _ _)

/-- C10: the grammar score returned by `check_grammar` is always a multiple
of 5 lying in `[0, 100]`. -/
theorem grammar_score_range (ms : List GrammarMatch) :
    0 ≤ (check_grammar ms).1 ∧ (check_grammar ms).1 ≤ 100
    ∧ (5 : ℤ) ∣ (check_grammar ms).1 := by
  refine ⟨le_max_left 0 _, ?_, ?_⟩
  · show max 0 (100 - (ms.length : ℤ) * 5) ≤ 100
    apply max_le (by norm_num)
    have : (0 : ℤ) ≤ (ms.length : ℤ) * 5 := by positivity
    omega
  · show (5 : ℤ) ∣ max 0 (100 - (ms.length : ℤ) * 5)
    rcases max_cases (0 : ℤ) (100 - (ms.length : ℤ) * 5) with ⟨h, -⟩ | ⟨h, -⟩ <;> rw [h]
    · decide
    · exact ⟨20 - (ms.length : ℤ), by ring⟩

/-- C8 counterexample: with the grammar backend unavailable (the
`tool.check` call raising), `generate_score` does NOT degrade gracefully to
grammar score 100 with an empty error list — the exception propagates and no
composite score is returned at all. -/
theorem engine_failure_not_graceful :
    generate_scoreE "" [] 0 (Except.error "engine unavailable")
        = Except.error "engine unavailable"
    ∧ ∀ rep : ScoreReport,
        generate_scoreE "" [] 0 (Except.error "engine unavailable") ≠ Except.ok rep := by
  refine ⟨rfl, fun rep h => ?_⟩
  exact Except.noConfusion h

/-- C8 amended: `check_grammar` installs no exception handler, so a grammar
backend failure propagates out of `generate_score` unchanged (the whole call
fails, with no graceful degradation); only when the backend answers is the
composite report returned. -/
theorem engine_failure_propagates (text : String) (tokens : List String)
    (readabilityRaw : ℚ) (e : String) :
    generate_scoreE text tokens readabilityRaw (Except.error e) = Except.error e
    ∧ ∀ ms, generate_scoreE text tokens readabilityRaw (Except.ok ms)
        = Except.ok (generate_score text tokens readabilityRaw ms) :=
  ⟨rfl, fun _ => rfl⟩

/-- C3 counterexample: in the documented scenario
(candidate {python, docker, java}, required {python, sql, docker}) the code
returns `match_score = int(2/3 × 100) = 66`, not `round(2/3 × 100) = 67` as
the claim states: `int()` truncates instead of rounding. -/
theorem match_score_truncates_counterexample :
    (match_resume_to_job ["python", "docker", "java"]
        ["python", "sql", "docker"]).match_score = 66
    ∧ (match_resume_to_job ["python", "docker", "java"]
        ["python", "sql", "docker"]).match_score ≠ 67
    ∧ (match_resume_to_job ["python", "docker", "java"]
        ["python", "sql", "docker"]).matched_skills = {"python", "docker"}
    ∧ (match_resume_to_job ["python", "docker", "java"]
        ["python", "sql", "docker"]).missing_skills = {"sql"} := by
  have h : (match_resume_to_job ["python", "docker", "java"]
      ["python", "sql", "docker"]).match_score = 66 := by
    simp only [match_resume_to_job]
    rw [if_pos (by decide), floor_ratio_mul_hundred]
    decide
  refine ⟨h, ?_, ?_, ?_⟩
  · rw [h]
    decide
  · decide
  · decide

/-- C3 amended: for lower-cased candidate and required skill sets with the
required set non-empty, `match_resume_to_job` returns
`match_score = ⌊100 × |matched| / |required|⌋` (Python `int()` truncation of
the percentage, not `round`), `matched = candidate ∩ required` and
`missing = required − candidate`; in the documented scenario this gives
`matched = {python, docker}`, `match_score = 66` and `missing = {sql}`. -/
theorem match_formula (cand req : List String)
    (h : ((req.map strToLower).toFinset : Finset String).Nonempty) :
    (match_resume_to_job cand req).match_score
        = (((100 * ((cand.map strToLower).toFinset ∩ (req.map strToLower).toFinset).card)
            / (req.map strToLower).toFinset.card : ℕ) : ℤ)
    ∧ (match_resume_to_job cand req).matched_skills
        = (cand.map strToLower).toFinset ∩ (req.map strToLower).toFinset
    ∧ (match_resume_to_job cand req).missing_skills
        = (req.map strToLower).toFinset \ (cand.map strToLower).toFinset := by
  refine ⟨?_, rfl, rfl⟩
  simp only [match_resume_to_job]
  rw [if_pos h, floor_ratio_mul_hundred]

/-- Witness for C3 (amended) at the documented scenario: the required set is
non-empty and the returned score is `⌊100 × 2 / 3⌋ = 66`. -/
theorem match_formula_witness :
    ((["python", "sql", "docker"].map strToLower).toFinset : Finset String).Nonempty
    ∧ (match_resume_to_job ["python", "docker", "java"]
        ["python", "sql", "docker"]).match_score = 66 := by
  have h : ((["python", "sql", "docker"].map strToLower).toFinset :
      Finset String).Nonempty := by decide
  refine ⟨h, ?_⟩
  rw [(match_formula ["python", "docker", "java"] ["python", "sql", "docker"] h).1]
  decide

/-- C4: skill matching is two-tier.  A vocabulary entry without internal
whitespace is matched iff some token of the lower-cased text equals it
exactly; an entry containing whitespace is matched iff it occurs as a
contiguous substring of the lower-cased text (tokens themselves never
contain whitespace). -/
theorem analyze_skills_two_tier (tokens : List String) (text skill : String)
    (hskill : skill ∈ TARGET_SKILLS)
    (htok : ∀ t ∈ tokens, strContainsChar t ' ' = false) :
    (strContainsChar skill ' ' = false →
      (skill ∈ analyze_skills tokens text ↔ skill ∈ tokens))
    ∧ (strContainsChar skill ' ' = true →
      (skill ∈ analyze_skills tokens text ↔
        strContainsSubstr (strToLower text) skill = true)) := by
  constructor
  · intro hs
    rw [mem_analyze_skills]
    constructor
    · rintro ⟨-, h | ⟨hc, -⟩⟩
      · exact h
      · rw [hs] at hc
        cases hc
    · intro h
      exact ⟨hskill, Or.inl h⟩
  · intro hs
    rw [mem_analyze_skills]
    constructor
    · rintro ⟨-, h | ⟨-, hsub⟩⟩
      · have := htok skill h
        rw [hs] at this
        cases this
      · exact hsub
    · intro h
      exact ⟨hskill, Or.inr ⟨hs, h⟩⟩

/-- Witness for C4 at the documented scenario: the tokens contain no
whitespace, `"machine learning"` is matched exactly by the substring tier,
the matched set is `{python, machine learning}`, and the resulting
skills score is `min(100, 10 × 2) = 20`. -/
theorem analyze_skills_two_tier_witness :
    ("machine learning" ∈ analyze_skills demoTokens demoText ↔
        strContainsSubstr (strToLower demoText) "machine learning" = true)
    ∧ analyze_skills demoTokens demoText = {"python", "machine learning"}
    ∧ (generate_score demoText demoTokens 0 []).skills_score = 20 :=
  ⟨(analyze_skills_two_tier demoTokens demoText "machine learning"
      (by decide) (by decide)).2 (by decide),
   by decide, by decide⟩

/-- C9: matching any candidate skill set against an empty required set
returns `match_score = 0` and `missing = ∅` — the division by
`|required_skills|` is guarded by the conditional, so no error occurs. -/
theorem empty_required_match (cand : List String) :
    (match_resume_to_job cand []).match_score = 0
    ∧ (match_resume_to_job cand []).missing_skills = ∅
    ∧ (match_resume_to_job cand []).matched_skills = ∅
    ∧ (match_resume_to_job cand []).total_required = 0 := by
  refine ⟨?_, ?_, ?_, ?_⟩ <;> simp [match_resume_to_job]

end ResumeParser
